import Mathlib

/-!
# The `speed` audio filter (`gst/speed/gstspeed.c`)

A shallow embedding of the unit conversion, the linear-interpolation
resampling loop, the per-buffer timeline bookkeeping and the event / query
translation of `gstspeed.c`, followed by theorems about them.

## Numeric model

* `gfloat` / `gdouble` quantities (`speed`, `i_float`, `interp`, `lower`,
  float samples) are exact rationals `ℚ`: binary rounding is not modelled.
* `guint`, `gint` and `gint64` quantities are unbounded `ℕ` / `ℤ`: the
  statements are about executions in which no integer leaves its machine
  range.  Signed overflow and out-of-range float-to-integer conversion are
  undefined behaviour in C.  The explicit conversions of the source are
  modelled with their 32-bit wrap: the narrowing
  `gint byterate = sample_size * rate` and the stores of the `gint` caps
  fields into the `guint` fields of the filter.
* `/` on C integers truncates toward zero (`Int.tdiv`); on naturals it is the
  usual quotient.  Division by a zero integer is a fault.
* A float stored into an integer lvalue is truncated toward zero.
* The `while` loop of the resampling functions takes a fuel argument and
  faults with `out_of_fuel` when it is used up; the theorems give the fuel
  that suffices.  Dividing a float by a zero speed is not modelled: every
  statement that divides by the speed assumes it positive.
-/

namespace Speed

/-! ## Framework types used by the element -/

/-- The `GstFormat` units of the framework: `DEFAULT` counts frames. -/
inductive GstFormat
  | UNDEFINED
  | DEFAULT
  | BYTES
  | TIME
  | BUFFERS
  | PERCENT
  deriving DecidableEq, Repr

/-- The sample encodings `GST_SPEED_FORMAT_INT` and `GST_SPEED_FORMAT_FLOAT`. -/
inductive GstSpeedFormat
  | INT
  | FLOAT
  deriving DecidableEq, Repr

/-- The flow results a chain function can hand back. -/
inductive GstFlowReturn
  | OK
  | NOT_LINKED
  | WRONG_STATE
  | UNEXPECTED
  | NOT_NEGOTIATED
  | ERROR
  | NOT_SUPPORTED
  deriving DecidableEq, Repr

/-- The state transitions passed to `change_state`. -/
inductive GstStateChange
  | NULL_TO_READY
  | READY_TO_PAUSED
  | PAUSED_TO_PLAYING
  | PLAYING_TO_PAUSED
  | PAUSED_TO_READY
  | READY_TO_NULL
  deriving DecidableEq, Repr

/-- Ways in which an execution of the C code stops without a result. -/
inductive Fault
  | div_by_zero
  | assertion
  | out_of_fuel
  deriving DecidableEq, Repr

deriving instance DecidableEq for Except

/-- The constant `GST_SECOND`: nanoseconds per second. -/
def GST_SECOND : Int := 1000000000

/-- Modelled from the spec: `struct _GstSpeed` is declared in `gstspeed.h`,
which is not among the sources.  The fields are the ones `gstspeed.c` reads
and writes; `rate`, `channels`, `width` and `sample_size` are non-negative
counts, `offset` and `timestamp` are `gint64`, `speed` is a `gfloat`. -/
structure GstSpeed where
  speed : ℚ
  offset : Int
  timestamp : Int
  rate : Nat
  channels : Nat
  width : Nat
  sample_size : Nat
  format : GstSpeedFormat
  deriving DecidableEq

/-- A buffer: its byte size, its metadata, and the two typed views the code
takes of `GST_BUFFER_DATA`: as a `gint16` array and as a `gfloat` array.  How
the two views overlay the same bytes is not modelled; each resampling
function touches only its own view. -/
structure GstBuffer where
  size : Nat
  offset : Int
  timestamp : Int
  duration : Int
  data16 : List Int
  data32 : List ℚ
  deriving DecidableEq

/-! ## Conversions between C number types -/

/-- The cast `(guint) ceil (x)`. -/
def guint_ceil (x : ℚ) : Nat := Int.toNat ⌈x⌉

/-- Storing a float into an integer lvalue: truncation toward zero. -/
def float_to_int (x : ℚ) : Int := if 0 ≤ x then ⌊x⌋ else ⌈x⌉

/-- Narrowing an unsigned 32-bit product into a `gint`. -/
def to_gint (x : Nat) : Int := ((x : Int) + 2 ^ 31) % 2 ^ 32 - 2 ^ 31

/-- The compound assignment `x /= speed` on a `gint64` lvalue. -/
def div_by_speed (x : Int) (speed : ℚ) : Int := float_to_int ((x : ℚ) / speed)

/-- The compound assignment `x *= speed` on a `gint64` lvalue. -/
def mul_by_speed (x : Int) (speed : ℚ) : Int := float_to_int ((x : ℚ) * speed)

/-- Storing a `gint` into a `guint` field: reduction modulo 2^32. -/
def to_guint (x : Int) : Nat := Int.toNat (x % 2 ^ 32)

/-! ## `gst_speed_convert` -/

/-- The function `gst_speed_convert`: `none` is the `FALSE` return, `some v` is
`TRUE` with `*dest_value = v`. -/
def gst_speed_convert (filter : GstSpeed) (src_format : GstFormat) (src_value : Int)
    (dest_format : GstFormat) : Option Int :=
  if src_format = dest_format then some src_value
  else
    match src_format with
    | .BYTES =>
      match dest_format with
      | .DEFAULT =>
        if filter.sample_size = 0 then none
        else some (Int.tdiv src_value filter.sample_size)
      | .TIME =>
        let byterate : Int := to_gint (filter.sample_size * filter.rate)
        if byterate = 0 then none
        else some (Int.tdiv (src_value * GST_SECOND) byterate)
      | _ => none
    | .DEFAULT =>
      match dest_format with
      | .BYTES => some (src_value * filter.sample_size)
      | .TIME =>
        if filter.rate = 0 then none
        else some (Int.tdiv (src_value * GST_SECOND) filter.rate)
      | _ => none
    | .TIME =>
      match dest_format with
      | .BYTES =>
        let scale : Int := filter.sample_size
        some (Int.tdiv (src_value * scale * filter.rate) GST_SECOND)
      | .DEFAULT =>
        let scale : Int := 1
        some (Int.tdiv (src_value * scale * filter.rate) GST_SECOND)
      | _ => none
    | _ => none

/-- The conversion table of the specification (section 4.3) read as a partial
function of the unit pair, the value and the state `(sample_size, rate)`.
The `/` of the table is the integer division of the code, which truncates. -/
def convert_table (sample_size rate : Nat) (src : GstFormat) (v : Int) (dst : GstFormat) :
    Option Int :=
  if src = dst then some v
  else
    match src, dst with
    | .BYTES, .DEFAULT =>
      if sample_size = 0 then none else some (Int.tdiv v sample_size)
    | .BYTES, .TIME =>
      if sample_size * rate = 0 then none
      else some (Int.tdiv (v * GST_SECOND) ((sample_size * rate : Nat) : Int))
    | .DEFAULT, .BYTES => some (v * sample_size)
    | .DEFAULT, .TIME =>
      if rate = 0 then none else some (Int.tdiv (v * GST_SECOND) rate)
    | .TIME, .BYTES => some (Int.tdiv (v * sample_size * rate) GST_SECOND)
    | .TIME, .DEFAULT => some (Int.tdiv (v * rate) GST_SECOND)
    | _, _ => none

/-! ## The resampling loop -/

/-- The loop of `speed_chain_int16` and `speed_chain_float32`, whose bodies
differ only in the sample type: `load` reads a sample as a float, `store`
converts the interpolated float to the sample type.  `in_data` and `out_data`
are the whole interleaved arrays and `c` the channel, so `in_data[i * channels]`
of the source is index `c + i * channels` here.  The result is the final `j`
and the output array.  A read outside the array yields `dflt`, a write outside
it is dropped. -/
def speed_chain_loop {α : Type} (load : α → ℚ) (store : ℚ → α) (dflt : α)
    (speed : ℚ) (channels : Nat) (in_data : List α) (c in_samples : Nat) :
    Nat → ℚ → Nat → Nat → ℚ → List α → Except Fault (Nat × List α)
  | 0, _, i, j, _, out_data =>
    if i < in_samples then .error .out_of_fuel else .ok (j, out_data)
  | fuel + 1, i_float, i, j, lower, out_data =>
    if i < in_samples then
      let interp : ℚ := i_float - ⌊i_float⌋
      let out_data := out_data.set (c + j * channels)
        (store (lower * (1 - interp) + load (in_data.getD (c + i * channels) dflt) * interp))
      let lower := load (in_data.getD (c + i * channels) dflt)
      let i_float := i_float + speed
      let i := guint_ceil i_float
      speed_chain_loop load store dflt speed channels in_data c in_samples
        fuel i_float i (j + 1) lower out_data
    else .ok (j, out_data)

/-- The function `speed_chain_int16` on channel `c`: returns `j` and the
`gint16` view of the output buffer. -/
def speed_chain_int16 (fuel : Nat) (filter : GstSpeed) (in_buf out_buf : GstBuffer)
    (c in_samples : Nat) : Except Fault (Nat × GstBuffer) :=
  let lower : ℚ := ((in_buf.data16.getD c 0 : Int) : ℚ)
  let i_float : ℚ := (1 / 2) * (filter.speed - 1)
  let i := guint_ceil i_float
  match speed_chain_loop (fun x : Int => (x : ℚ)) float_to_int 0 filter.speed filter.channels
      in_buf.data16 c in_samples fuel i_float i 0 lower out_buf.data16 with
  | .ok (j, out_data) => .ok (j, { out_buf with data16 := out_data })
  | .error e => .error e

/-- The function `speed_chain_float32` on channel `c`: returns `j` and the
`gfloat` view of the output buffer. -/
def speed_chain_float32 (fuel : Nat) (filter : GstSpeed) (in_buf out_buf : GstBuffer)
    (c in_samples : Nat) : Except Fault (Nat × GstBuffer) :=
  let lower : ℚ := in_buf.data32.getD c 0
  let i_float : ℚ := (1 / 2) * (filter.speed - 1)
  let i := guint_ceil i_float
  match speed_chain_loop (fun x : ℚ => x) (fun x : ℚ => x) 0 filter.speed filter.channels
      in_buf.data32 c in_samples fuel i_float i 0 lower out_buf.data32 with
  | .ok (j, out_data) => .ok (j, { out_buf with data32 := out_data })
  | .error e => .error e

/-! ## `speed_chain` -/

/-- A freshly allocated buffer of `size` bytes: `size / 2` entries in the
`gint16` view and `size / 4` in the `gfloat` view, no metadata. -/
def new_buffer (size : Nat) : GstBuffer :=
  { size := size, offset := -1, timestamp := -1, duration := -1,
    data16 := List.replicate (size / 2) 0, data32 := List.replicate (size / 4) 0 }

/-- The two assignments to `out_size` at the head of `speed_chain`:
`ceil ((gfloat) size / speed)`, then rounded up to a multiple of `sample_size`.
Only evaluated for `sample_size ≠ 0`. -/
def speed_chain_out_size (filter : GstSpeed) (in_size : Nat) : Nat :=
  let out_size := guint_ceil ((in_size : ℚ) / filter.speed)
  ((out_size + filter.sample_size - 1) / filter.sample_size) * filter.sample_size

/-- The `for (c = 0; c < filter->channels; ++c)` loop of `speed_chain`, with
`k` channels still to go from channel `c` on: every channel is resampled into
the same output buffer and `out_samples` keeps the count returned for the
last channel. -/
def speed_chain_for (fuel : Nat) (filter : GstSpeed) (in_buf : GstBuffer) (in_samples : Nat) :
    Nat → Nat → Nat → GstBuffer → Except Fault (Nat × GstBuffer)
  | 0, _, out_samples, out_buf => .ok (out_samples, out_buf)
  | k + 1, c, _, out_buf =>
    match (if filter.format = .INT then speed_chain_int16 fuel filter in_buf out_buf c in_samples
      else speed_chain_float32 fuel filter in_buf out_buf c in_samples) with
    | .error e => .error e
    | .ok (out_samples, out_buf) =>
      speed_chain_for fuel filter in_buf in_samples k (c + 1) out_samples out_buf

/-- The channel loop of `speed_chain` from `out_samples = 0` and `c = 0`. -/
def speed_chain_channels (fuel : Nat) (filter : GstSpeed) (in_buf out_buf : GstBuffer)
    (in_samples : Nat) : Except Fault (Nat × GstBuffer) :=
  speed_chain_for fuel filter in_buf in_samples filter.channels 0 0 out_buf

/-- The function `speed_chain`.  `alloc_ret` is what the downstream allocator
returns and `push_ret` what `gst_pad_push` returns.  The result is the filter
state afterwards, the buffer pushed downstream (if any) and the flow return. -/
def speed_chain (fuel : Nat) (filter : GstSpeed) (in_buf : GstBuffer)
    (alloc_ret push_ret : GstFlowReturn) :
    Except Fault (GstSpeed × Option GstBuffer × GstFlowReturn) :=
  if filter.sample_size = 0 then .error .div_by_zero
  else
    let out_size := speed_chain_out_size filter in_buf.size
    if alloc_ret ≠ .OK then .ok (filter, none, alloc_ret)
    else
      let out_buf := new_buffer out_size
      let in_samples := in_buf.size / filter.sample_size
      match speed_chain_channels fuel filter in_buf out_buf in_samples with
      | .error e => .error e
      | .ok (out_samples, out_buf) =>
        let out_buf := { out_buf with size := out_samples * filter.sample_size }
        let out_buf := { out_buf with offset := filter.offset, timestamp := filter.timestamp }
        let filter :=
          { filter with offset := filter.offset + ((out_buf.size / filter.sample_size : Nat) : Int) }
        if filter.rate = 0 then .error .div_by_zero
        else
          let filter :=
            { filter with timestamp := Int.tdiv (filter.offset * GST_SECOND) filter.rate }
          let out_buf := { out_buf with duration := filter.timestamp - out_buf.timestamp }
          .ok (filter, some out_buf, push_ret)

/-- The function `speed_change_state`, as far as the filter state goes. -/
def speed_change_state (speed : GstSpeed) (transition : GstStateChange) : GstSpeed :=
  match transition with
  | .READY_TO_PAUSED => { speed with offset := 0, timestamp := 0 }
  | _ => speed

/-- Feeding a sequence of buffers through `speed_chain`, each with its own
allocator and push results: the list of filter states after each buffer. -/
def speed_chain_run (fuel : Nat) :
    GstSpeed → List (GstBuffer × GstFlowReturn × GstFlowReturn) → Except Fault (List GstSpeed)
  | _, [] => .ok []
  | filter, (in_buf, alloc_ret, push_ret) :: rest =>
    match speed_chain fuel filter in_buf alloc_ret push_ret with
    | .error e => .error e
    | .ok (filter', _, _) =>
      match speed_chain_run fuel filter' rest with
      | .error e => .error e
      | .ok states => .ok (filter' :: states)

/-! ## Events and queries -/

/-- The `GstSeekType` tags of a seek position. -/
inductive GstSeekType
  | NONE
  | CUR
  | SET
  | END
  deriving DecidableEq, Repr

/-- The events the element looks at, with the fields it parses. -/
inductive GstEvent
  | NEWSEGMENT (update : Bool) (rate : ℚ) (format : GstFormat) (start_value stop_value base : Int)
  | EOS
  | SEEK (rate : ℚ) (format : GstFormat) (flags : Nat) (start_type : GstSeekType) (start : Int)
      (stop_type : GstSeekType) (stop : Int)
  | OTHER (tag : Nat)
  deriving DecidableEq

/-- The branch on the announced unit in the `GST_EVENT_NEWSEGMENT` case of
`speed_sink_event`, with `start_value` already divided by the speed: the
writes to `filter->timestamp` and `filter->offset`.  A failed conversion
leaves its destination as it was. -/
def speed_sink_event_baseline (filter : GstSpeed) (format : GstFormat) (start_value : Int) :
    GstSpeed :=
  if format = .TIME then
    let filter := { filter with timestamp := start_value }
    match gst_speed_convert filter .TIME filter.timestamp .BYTES with
    | some v => { filter with offset := v }
    | none => filter
  else if format = .BYTES then
    let filter := { filter with offset := start_value }
    match gst_speed_convert filter .BYTES filter.offset .TIME with
    | some v => { filter with timestamp := v }
    | none => filter
  else if format = .DEFAULT then
    let filter :=
      match gst_speed_convert filter .BYTES start_value .TIME with
      | some v => { filter with timestamp := v }
      | none => filter
    match gst_speed_convert filter .TIME start_value .BYTES with
    | some v => { filter with offset := v }
    | none => filter
  else filter

/-- The function `speed_sink_event`.  `default_ret` is what
`gst_pad_event_default` returns.  The result is the filter state afterwards,
the event handed to `gst_pad_event_default` and the return value. -/
def speed_sink_event (filter : GstSpeed) (event : GstEvent) (default_ret : Bool) :
    Except Fault (GstSpeed × GstEvent × Bool) :=
  match event with
  | .NEWSEGMENT update rate format start_value stop_value base =>
    if ¬ (0 < filter.speed) then .error .assertion
    else
      let start_value := div_by_speed start_value filter.speed
      let stop_value := div_by_speed stop_value filter.speed
      let filter := speed_sink_event_baseline filter format start_value
      .ok (filter, .NEWSEGMENT update rate format start_value stop_value base, true)
  | .EOS => .ok (filter, .EOS, true)
  | e => .ok (filter, e, default_ret)

/-- Where `speed_src_event` sends an event: to the peer of the sink pad
(`gst_pad_send_event`), to `gst_pad_event_default`, or nowhere. -/
inductive Forwarded
  | to_peer (event : GstEvent)
  | to_default (event : GstEvent)
  | nowhere
  deriving DecidableEq

/-- The function `speed_src_event`.  `send_ret` is what `gst_pad_send_event` on
the peer returns (FALSE when the sink pad has no peer) and `default_ret` what
`gst_pad_event_default` returns.  The
result is where the event went and the return value; the filter state is only
read. -/
def speed_src_event (filter : GstSpeed) (event : GstEvent) (send_ret default_ret : Bool) :
    Forwarded × Bool :=
  match event with
  | .SEEK rate format flags start_type start stop_type stop =>
    match format with
    | .DEFAULT | .BYTES | .TIME =>
      let start := if start_type ≠ .NONE then mul_by_speed start filter.speed else start
      let stop := if stop_type ≠ .NONE then mul_by_speed stop filter.speed else stop
      (.to_peer (.SEEK rate format flags start_type start stop_type stop), send_ret)
    | _ => (.nowhere, true)
  | e => (.to_default e, default_ret)

/-! ## Negotiation -/

/-- The structure at index 0 of a caps descriptor, with the fields the element
and its pad template look at.  A field is `none` when the structure lacks it
or holds it with another type, which is when `gst_structure_get_int` fails. -/
structure GstStructure where
  name : String
  rate : Option Int
  channels : Option Int
  endianness : Option Int
  width : Option Int
  depth : Option Int
  signed : Option Bool
  deriving DecidableEq

/-- The constant `G_MAXINT`, the `MAX` of a caps string. -/
def G_MAXINT : Int := 2147483647

/-- An `(int) [ lo, hi ]` field of a caps string. -/
def int_range (lo hi : Int) : Option Int → Bool
  | some v => decide (lo ≤ v) && decide (v ≤ hi)
  | none => false

/-- The pad template `GST_SPEED_AUDIO_CAPS`: whether a structure is of one of
the two layouts.  `byte_order` is the `BYTE_ORDER` of the host. -/
def GST_SPEED_AUDIO_CAPS (byte_order : Int) (s : GstStructure) : Bool :=
  (s.name == "audio/x-raw-float"
    && int_range 1 G_MAXINT s.rate
    && int_range 1 G_MAXINT s.channels
    && s.endianness == some byte_order
    && s.width == some 32)
  ||
  (s.name == "audio/x-raw-int"
    && int_range 1 G_MAXINT s.rate
    && int_range 1 G_MAXINT s.channels
    && s.endianness == some byte_order
    && s.width == some 16
    && s.depth == some 16
    && s.signed == some true)

/-- The three `gst_structure_get_int` calls of `speed_parse_caps` and what
follows them, `filter->format` being already written. -/
def speed_parse_caps_fields (filter : GstSpeed) (st : GstStructure) : Bool × GstSpeed :=
  match st.rate, st.width, st.channels with
  | some rate, some width, some chans =>
    let filter := { filter with rate := to_guint rate }
    let filter := { filter with width := to_guint width }
    let filter := { filter with channels := to_guint chans }
    let filter :=
      if filter.format = .FLOAT then
        { filter with sample_size := filter.channels * filter.width / 8 }
      else
        { filter with sample_size := filter.channels * filter.width / 8 }
    (true, filter)
  | _, _, _ => (false, filter)

/-- The function `speed_parse_caps` on `st`, the structure at index 0 of the
caps (the variable `structure` of the source): the return value and the
filter state afterwards. -/
def speed_parse_caps (filter : GstSpeed) (st : GstStructure) : Bool × GstSpeed :=
  if st.name = "audio/x-raw-float" then
    speed_parse_caps_fields { filter with format := .FLOAT } st
  else if st.name = "audio/x-raw-int" then
    speed_parse_caps_fields { filter with format := .INT } st
  else (false, filter)

/-- The function `speed_setcaps`.  `set_caps_ret` is what `gst_pad_set_caps` on
the other pad returns. -/
def speed_setcaps (filter : GstSpeed) (caps : GstStructure) (set_caps_ret : Bool) :
    Bool × GstSpeed :=
  match speed_parse_caps filter caps with
  | (true, filter) => (set_caps_ret, filter)
  | (false, filter) => (false, filter)

/-- The writes of `speed_init` to the filter state. -/
def speed_init (filter : GstSpeed) : GstSpeed :=
  { filter with offset := 0, timestamp := 0, sample_size := 0 }

/-! ## Closed forms and fixtures used in the statements -/

/-- The number of iterations of the resampling loop in closed form:
`max 0 (floor ((in_samples - 1 - 0.5 * (speed - 1)) / speed) + 1)`. -/
def out_frames (speed : ℚ) (in_samples : Nat) : Nat :=
  Int.toNat (⌊((in_samples : ℚ) - 1 - (1 / 2) * (speed - 1)) / speed⌋ + 1)

/-- The cursor `pos_j = 0.5 * (speed - 1) + j * speed` before output frame `j`. -/
def cursor (speed : ℚ) (j : Nat) : ℚ := (1 / 2) * (speed - 1) + (j : ℚ) * speed

/-- The value of the variable `lower` when output frame `j` of channel `c` is
computed: `in_data[0]` for the first frame, afterwards the input sample read
for the previous output frame, at index `ceil (pos_(j-1))`. -/
def lower_sample {α : Type} (load : α → ℚ) (dflt : α) (speed : ℚ) (channels : Nat)
    (in_data : List α) (c : Nat) : Nat → ℚ
  | 0 => load (in_data.getD c dflt)
  | j + 1 => load (in_data.getD (c + guint_ceil (cursor speed j) * channels) dflt)

/-- The float the loop computes for output frame `j` of channel `c`, in closed
form: `lower * (1 - interp) + in_data[i * channels] * interp`. -/
def frame_value {α : Type} (load : α → ℚ) (dflt : α) (speed : ℚ) (channels : Nat)
    (in_data : List α) (c j : Nat) : ℚ :=
  lower_sample load dflt speed channels in_data c j * (1 - (cursor speed j - ⌊cursor speed j⌋))
    + load (in_data.getD (c + guint_ceil (cursor speed j) * channels) dflt)
      * (cursor speed j - ⌊cursor speed j⌋)

/-- The value `out_samples` holds after the channel loop of `speed_chain`, in
closed form: the loop count of the last channel, 0 without channels. -/
def chain_frames (filter : GstSpeed) (in_samples : Nat) : Nat :=
  if filter.channels = 0 then 0 else out_frames filter.speed in_samples

/-- The filter state after a buffer of `out_samples` output frames, as the
Timeline Tracker of the specification (section 4.3) describes it. -/
def tracker_step (filter : GstSpeed) (out_samples : Nat) : GstSpeed :=
  { filter with
    offset := filter.offset + out_samples
    timestamp := Int.tdiv ((filter.offset + out_samples) * GST_SECOND) filter.rate }

/-- Fuel that suffices for `speed_chain_run` on a sequence of buffers: the
largest loop count among them. -/
def run_fuel (speed : ℚ) (sample_size : Nat) :
    List (GstBuffer × GstFlowReturn × GstFlowReturn) → Nat
  | [] => 0
  | (in_buf, _, _) :: rest =>
    max (out_frames speed (in_buf.size / sample_size)) (run_fuel speed sample_size rest)

/-- The descriptor of Scenario 3: signed 16-bit integer, 8000 Hz, two
channels, on a little-endian host. -/
def scenario3_caps : GstStructure :=
  { name := "audio/x-raw-int", rate := some 8000, channels := some 2, endianness := some 1234,
    width := some 16, depth := some 16, signed := some true }

/-- The stream of the scenarios: 16-bit integer, 44100 Hz, one channel. -/
def scenario_filter (speed : ℚ) : GstSpeed :=
  { speed := speed, offset := 0, timestamp := 0, rate := 44100, channels := 1, width := 16,
    sample_size := 2, format := .INT }

/-- The input of the scenarios: the four frames 100, 200, 300, 400. -/
def scenario_buffer : GstBuffer :=
  { size := 8, offset := 0, timestamp := 0, duration := 0, data16 := [100, 200, 300, 400],
    data32 := [] }

/-! ## Unit conversion -/

theorem to_gint_of_lt (x : Nat) (h : x < 2 ^ 31) : to_gint x = (x : Int) := by
  unfold to_gint
  omega

/-- C1: `gst_speed_convert` is the conversion table of the specification, as a
partial function: whenever the byte rate `sample_size * rate` fits a `gint`,
it fails exactly where the table fails and returns the table's value
everywhere else, for every pair of units, every value and every state. -/
theorem gst_speed_convert_eq_table (filter : GstSpeed) (src dst : GstFormat) (v : Int)
    (hno : filter.sample_size * filter.rate < 2 ^ 31) :
    gst_speed_convert filter src v dst
      = convert_table filter.sample_size filter.rate src v dst := by
  have hb : to_gint (filter.sample_size * filter.rate)
      = ((filter.sample_size * filter.rate : Nat) : Int) := to_gint_of_lt _ hno
  cases src <;> cases dst <;> simp [gst_speed_convert, convert_table, hb]

/-- Instance of C1: 88200 bytes of 16-bit mono audio at 44100 Hz are one second. -/
theorem gst_speed_convert_eq_table_witness :
    (scenario_filter 1).sample_size * (scenario_filter 1).rate < 2 ^ 31
    ∧ gst_speed_convert (scenario_filter 1) .BYTES 88200 .TIME
      = convert_table (scenario_filter 1).sample_size (scenario_filter 1).rate .BYTES 88200 .TIME
    ∧ convert_table 2 44100 .BYTES 88200 .TIME = some 1000000000 :=
  ⟨by decide, gst_speed_convert_eq_table (scenario_filter 1) .BYTES .TIME 88200 (by decide),
    by decide⟩

/-! ## The loop count -/

theorem cursor_gt (s : ℚ) (hs : 0 < s) (j : Nat) : -1 < (1 / 2) * (s - 1) + (j : ℚ) * s := by
  have : 0 ≤ (j : ℚ) * s := mul_nonneg (Nat.cast_nonneg j) hs.le
  linarith

theorem guint_ceil_lt_iff (x : ℚ) (hx : -1 < x) (n : Nat) :
    guint_ceil x < n ↔ x ≤ (n : ℚ) - 1 := by
  unfold guint_ceil
  have h0 : 0 ≤ ⌈x⌉ := by
    have : (-1 : ℤ) < ⌈x⌉ := by
      rw [Int.lt_ceil]; exact_mod_cast hx
    omega
  rw [Int.toNat_lt h0]
  have : (⌈x⌉ < (n : ℤ)) ↔ ⌈x⌉ ≤ (n : ℤ) - 1 := by omega
  rw [this, Int.ceil_le]
  push_cast
  rfl

theorem loop_cond_iff (s : ℚ) (hs : 0 < s) (n j : Nat) :
    guint_ceil ((1 / 2) * (s - 1) + (j : ℚ) * s) < n ↔ j < out_frames s n := by
  rw [guint_ceil_lt_iff _ (cursor_gt s hs j)]
  unfold out_frames
  rw [Int.lt_toNat, Int.lt_add_one_iff, Int.le_floor, le_div_iff₀ hs]
  push_cast
  constructor <;> intro h <;> linarith

theorem speed_chain_loop_count {α : Type} (load : α → ℚ) (store : ℚ → α) (dflt : α)
    (s : ℚ) (hs : 0 < s) (channels : Nat) (in_data : List α) (c n : Nat) :
    ∀ (fuel j : Nat) (lower : ℚ) (out_data : List α),
      out_frames s n - j ≤ fuel →
      ∃ out', speed_chain_loop load store dflt s channels in_data c n fuel
          ((1 / 2) * (s - 1) + (j : ℚ) * s) (guint_ceil ((1 / 2) * (s - 1) + (j : ℚ) * s))
          j lower out_data = .ok (max j (out_frames s n), out') := by
  intro fuel
  induction fuel with
  | zero =>
    intro j lower out_data hf
    have hj : ¬ j < out_frames s n := by omega
    have hc := (loop_cond_iff s hs n j).not.mpr hj
    refine ⟨out_data, ?_⟩
    simp only [speed_chain_loop, if_neg hc]
    rw [max_eq_left (by omega)]
  | succ fuel ih =>
    intro j lower out_data hf
    by_cases hj : j < out_frames s n
    · have hc := (loop_cond_iff s hs n j).mpr hj
      have hstep : (1 / 2) * (s - 1) + (j : ℚ) * s + s = (1 / 2) * (s - 1) + ((j + 1 : Nat) : ℚ) * s := by
        push_cast; ring
      simp only [speed_chain_loop, if_pos hc]
      rw [hstep]
      obtain ⟨out', h⟩ := ih (j + 1) _ _ (by omega)
      refine ⟨out', ?_⟩
      rw [h, max_eq_right (by omega), max_eq_right (by omega)]
    · have hc := (loop_cond_iff s hs n j).not.mpr hj
      refine ⟨out_data, ?_⟩
      simp only [speed_chain_loop, if_neg hc]
      rw [max_eq_left (by omega)]

theorem speed_chain_int16_count (fuel : Nat) (filter : GstSpeed) (in_buf out_buf : GstBuffer)
    (c n : Nat) (hs : 0 < filter.speed) (hf : out_frames filter.speed n ≤ fuel) :
    ∃ out', speed_chain_int16 fuel filter in_buf out_buf c n
      = .ok (out_frames filter.speed n, out') := by
  obtain ⟨out', h⟩ := speed_chain_loop_count (fun x : Int => (x : ℚ)) float_to_int 0
    filter.speed hs filter.channels in_buf.data16 c n fuel 0
    ((in_buf.data16.getD c 0 : Int) : ℚ) out_buf.data16 (by omega)
  simp only [Nat.cast_zero, zero_mul, add_zero, Nat.zero_max] at h
  exact ⟨{ out_buf with data16 := out' }, by simp only [speed_chain_int16, h]⟩

theorem speed_chain_float32_count (fuel : Nat) (filter : GstSpeed) (in_buf out_buf : GstBuffer)
    (c n : Nat) (hs : 0 < filter.speed) (hf : out_frames filter.speed n ≤ fuel) :
    ∃ out', speed_chain_float32 fuel filter in_buf out_buf c n
      = .ok (out_frames filter.speed n, out') := by
  obtain ⟨out', h⟩ := speed_chain_loop_count (fun x : ℚ => x) (fun x : ℚ => x) 0
    filter.speed hs filter.channels in_buf.data32 c n fuel 0
    (in_buf.data32.getD c 0) out_buf.data32 (by omega)
  simp only [Nat.cast_zero, zero_mul, add_zero, Nat.zero_max] at h
  exact ⟨{ out_buf with data32 := out' }, by simp only [speed_chain_float32, h]⟩

theorem speed_chain_for_count (fuel : Nat) (filter : GstSpeed) (in_buf : GstBuffer) (n : Nat)
    (hs : 0 < filter.speed) (hf : out_frames filter.speed n ≤ fuel) :
    ∀ (k c out_samples : Nat) (out_buf : GstBuffer),
      ∃ ob, speed_chain_for fuel filter in_buf n k c out_samples out_buf
        = .ok (if k = 0 then out_samples else out_frames filter.speed n, ob) := by
  intro k
  induction k with
  | zero => intro c out_samples out_buf; exact ⟨out_buf, rfl⟩
  | succ k ih =>
    intro c out_samples out_buf
    have hstep : ∃ ob, (if filter.format = .INT then
          speed_chain_int16 fuel filter in_buf out_buf c n
          else speed_chain_float32 fuel filter in_buf out_buf c n)
        = .ok (out_frames filter.speed n, ob) := by
      by_cases hfmt : filter.format = .INT
      · rw [if_pos hfmt]; exact speed_chain_int16_count fuel filter in_buf out_buf c n hs hf
      · rw [if_neg hfmt]; exact speed_chain_float32_count fuel filter in_buf out_buf c n hs hf
    obtain ⟨ob, hob⟩ := hstep
    obtain ⟨ob', hob'⟩ := ih (c + 1) (out_frames filter.speed n) ob
    refine ⟨ob', ?_⟩
    simp only [speed_chain_for, hob, hob']
    by_cases hk : k = 0 <;> simp [hk]

theorem speed_chain_channels_count (fuel : Nat) (filter : GstSpeed) (in_buf out_buf : GstBuffer)
    (n : Nat) (hs : 0 < filter.speed) (hf : out_frames filter.speed n ≤ fuel) :
    ∃ ob, speed_chain_channels fuel filter in_buf out_buf n = .ok (chain_frames filter n, ob) := by
  obtain ⟨ob, h⟩ := speed_chain_for_count fuel filter in_buf n hs hf filter.channels 0 0 out_buf
  exact ⟨ob, by simp only [speed_chain_channels, chain_frames, h]⟩

theorem speed_chain_of_channels (fuel : Nat) (filter : GstSpeed) (in_buf : GstBuffer)
    (push_ret : GstFlowReturn) (out_samples : Nat) (ob : GstBuffer)
    (hss : 0 < filter.sample_size) (hr : 0 < filter.rate)
    (hch : speed_chain_channels fuel filter in_buf
        (new_buffer (speed_chain_out_size filter in_buf.size))
        (in_buf.size / filter.sample_size) = .ok (out_samples, ob)) :
    speed_chain fuel filter in_buf .OK push_ret
      = .ok (tracker_step filter out_samples,
          some { ob with
            size := out_samples * filter.sample_size
            offset := filter.offset
            timestamp := filter.timestamp
            duration := (tracker_step filter out_samples).timestamp - filter.timestamp },
          push_ret) := by
  have h1 : filter.sample_size ≠ 0 := by omega
  have h2 : filter.rate ≠ 0 := by omega
  simp [speed_chain, h1, h2, hch, tracker_step, Nat.mul_div_cancel _ hss]

/-- C7: whenever the channel loop produced `out_samples` frames for a buffer
(on a stream with `sample_size > 0` and `rate > 0`, the allocation having
succeeded), `speed_chain` returns, stamps the output buffer with the old
offset and timestamp, moves the offset to old offset + `out_samples`, sets
the timestamp to new offset * GST_SECOND / rate, sets the duration to new
timestamp - old timestamp and leaves speed, format, rate, channels, width
and sample_size alone. -/
theorem speed_chain_tracker_step (fuel : Nat) (filter : GstSpeed) (in_buf : GstBuffer)
    (push_ret : GstFlowReturn) (out_samples : Nat) (ob : GstBuffer)
    (hss : 0 < filter.sample_size) (hr : 0 < filter.rate)
    (hch : speed_chain_channels fuel filter in_buf
        (new_buffer (speed_chain_out_size filter in_buf.size))
        (in_buf.size / filter.sample_size) = .ok (out_samples, ob)) :
    ∃ filter' out_buf,
      speed_chain fuel filter in_buf .OK push_ret = .ok (filter', some out_buf, push_ret)
      ∧ out_buf.offset = filter.offset
      ∧ out_buf.timestamp = filter.timestamp
      ∧ filter'.offset = filter.offset + out_samples
      ∧ filter'.timestamp = Int.tdiv (filter'.offset * GST_SECOND) filter.rate
      ∧ out_buf.duration = filter'.timestamp - filter.timestamp
      ∧ filter'.speed = filter.speed ∧ filter'.format = filter.format
      ∧ filter'.rate = filter.rate ∧ filter'.channels = filter.channels
      ∧ filter'.width = filter.width ∧ filter'.sample_size = filter.sample_size :=
  ⟨_, _, speed_chain_of_channels fuel filter in_buf push_ret out_samples ob hss hr hch,
    rfl, rfl, rfl, rfl, rfl, rfl, rfl, rfl, rfl, rfl, rfl⟩

theorem tdiv_mono (a b : Int) (r : Nat) (ha : 0 ≤ a) (hab : a ≤ b) (hr : 0 < r) :
    Int.tdiv (a * GST_SECOND) r ≤ Int.tdiv (b * GST_SECOND) r := by
  have hS : (0 : Int) ≤ GST_SECOND := by decide
  have hr' : (0 : Int) < (r : Int) := by exact_mod_cast hr
  rw [Int.tdiv_eq_ediv (Int.mul_nonneg ha hS) hr'.le,
    Int.tdiv_eq_ediv (Int.mul_nonneg (ha.trans hab) hS) hr'.le]
  exact Int.ediv_le_ediv hr' (Int.mul_le_mul_of_nonneg_right hab hS)

theorem speed_chain_total (fuel : Nat) (filter : GstSpeed) (in_buf : GstBuffer)
    (alloc_ret push_ret : GstFlowReturn)
    (hs : 0 < filter.speed) (hss : 0 < filter.sample_size) (hr : 0 < filter.rate)
    (hf : out_frames filter.speed (in_buf.size / filter.sample_size) ≤ fuel) :
    ∃ filter' out r, speed_chain fuel filter in_buf alloc_ret push_ret = .ok (filter', out, r)
      ∧ filter'.speed = filter.speed ∧ filter'.sample_size = filter.sample_size
      ∧ filter'.rate = filter.rate
      ∧ filter.offset ≤ filter'.offset
      ∧ (0 ≤ filter.offset →
          filter.timestamp = Int.tdiv (filter.offset * GST_SECOND) filter.rate →
          filter.timestamp ≤ filter'.timestamp
          ∧ filter'.timestamp = Int.tdiv (filter'.offset * GST_SECOND) filter.rate) := by
  by_cases ha : alloc_ret = .OK
  · subst ha
    obtain ⟨ob, hch⟩ := speed_chain_channels_count fuel filter in_buf
      (new_buffer (speed_chain_out_size filter in_buf.size))
      (in_buf.size / filter.sample_size) hs hf
    refine ⟨_, _, _, speed_chain_of_channels fuel filter in_buf push_ret _ ob hss hr hch,
      rfl, rfl, rfl, ?_, ?_⟩
    · simp only [tracker_step]; omega
    · intro h0 hinv
      refine ⟨?_, rfl⟩
      rw [hinv]
      exact tdiv_mono _ _ _ h0 (by omega) hr
  · have h1 : filter.sample_size ≠ 0 := by omega
    refine ⟨filter, none, alloc_ret, by simp [speed_chain, h1, ha], rfl, rfl, rfl, le_refl _, ?_⟩
    intro _ hinv
    exact ⟨le_refl _, hinv⟩

theorem speed_chain_run_inv (fuel : Nat) :
    ∀ (bufs : List (GstBuffer × GstFlowReturn × GstFlowReturn)) (filter : GstSpeed),
      0 < filter.speed → 0 < filter.sample_size → 0 < filter.rate →
      0 ≤ filter.offset →
      filter.timestamp = Int.tdiv (filter.offset * GST_SECOND) filter.rate →
      run_fuel filter.speed filter.sample_size bufs ≤ fuel →
      ∃ states, speed_chain_run fuel filter bufs = .ok states
        ∧ states.length = bufs.length
        ∧ List.Chain (fun a b : GstSpeed => a.offset ≤ b.offset ∧ a.timestamp ≤ b.timestamp)
            filter states
        ∧ ∀ st ∈ states, st.rate = filter.rate
          ∧ st.timestamp = Int.tdiv (st.offset * GST_SECOND) filter.rate := by
  intro bufs
  induction bufs with
  | nil =>
    intro filter _ _ _ _ _ _
    exact ⟨[], rfl, rfl, List.Chain.nil, by simp⟩
  | cons b rest ih =>
    intro filter hs hss hr h0 hinv hf
    obtain ⟨in_buf, alloc_ret, push_ret⟩ := b
    simp only [run_fuel] at hf
    obtain ⟨filter', out, r, hstep, hsp, hsz, hrt, hoff, hts⟩ :=
      speed_chain_total fuel filter in_buf alloc_ret push_ret hs hss hr (by omega)
    obtain ⟨hmono, hinv'⟩ := hts h0 hinv
    obtain ⟨states, hrun, hlen, hchain, hall⟩ := ih filter' (hsp ▸ hs) (hsz ▸ hss) (hrt ▸ hr)
      (h0.trans hoff) (by rw [hrt]; exact hinv') (by rw [hsp, hsz]; omega)
    refine ⟨filter' :: states, ?_, ?_, ?_, ?_⟩
    · simp only [speed_chain_run, hstep, hrun]
    · simp [hlen]
    · exact List.Chain.cons ⟨hoff, hmono⟩ hchain
    · intro st hst
      rcases List.mem_cons.mp hst with h | h
      · rw [h]; exact ⟨hrt, hinv'⟩
      · rw [← hrt]; exact hall st h

/-- C6: on a stream with `rate > 0`, `sample_size > 0` and a positive speed,
starting from the state the Ready->Paused transition leaves, `speed_chain`
processes every finite sequence of buffers (given fuel for the longest
resampling loop), offset and timestamp never decrease from one buffer to the
next, and after every buffer `timestamp = offset * GST_SECOND / rate`. -/
theorem speed_chain_run_monotonic (fuel : Nat) (filter : GstSpeed)
    (bufs : List (GstBuffer × GstFlowReturn × GstFlowReturn))
    (hs : 0 < filter.speed) (hss : 0 < filter.sample_size) (hr : 0 < filter.rate)
    (hf : run_fuel filter.speed filter.sample_size bufs ≤ fuel) :
    ∃ states,
      speed_chain_run fuel (speed_change_state filter .READY_TO_PAUSED) bufs = .ok states
      ∧ states.length = bufs.length
      ∧ List.Chain (fun a b : GstSpeed => a.offset ≤ b.offset ∧ a.timestamp ≤ b.timestamp)
          (speed_change_state filter .READY_TO_PAUSED) states
      ∧ ∀ st ∈ states, st.rate = filter.rate
          ∧ st.timestamp = Int.tdiv (st.offset * GST_SECOND) st.rate := by
  obtain ⟨states, h1, h2, h3, h4⟩ := speed_chain_run_inv fuel bufs
    (speed_change_state filter .READY_TO_PAUSED) hs hss hr (le_refl _)
    (by simp [speed_change_state, Int.tdiv]) hf
  refine ⟨states, h1, h2, h3, ?_⟩
  intro st hst
  obtain ⟨ha, hb⟩ := h4 st hst
  exact ⟨ha, by rw [ha]; exact hb⟩

/-- Instance of C6: Scenario 1 fed twice; the offset goes 0, 2, 4. -/
theorem speed_chain_run_monotonic_witness :
    (0 < (scenario_filter 2).speed ∧ 0 < (scenario_filter 2).sample_size
      ∧ 0 < (scenario_filter 2).rate
      ∧ run_fuel (scenario_filter 2).speed (scenario_filter 2).sample_size
          [(scenario_buffer, .OK, .OK), (scenario_buffer, .OK, .OK)] ≤ 2)
    ∧ (∃ states,
      speed_chain_run 2 (speed_change_state (scenario_filter 2) .READY_TO_PAUSED)
          [(scenario_buffer, .OK, .OK), (scenario_buffer, .OK, .OK)] = .ok states
      ∧ states.length = [(scenario_buffer, GstFlowReturn.OK, GstFlowReturn.OK),
          (scenario_buffer, GstFlowReturn.OK, GstFlowReturn.OK)].length
      ∧ List.Chain (fun a b : GstSpeed => a.offset ≤ b.offset ∧ a.timestamp ≤ b.timestamp)
          (speed_change_state (scenario_filter 2) .READY_TO_PAUSED) states
      ∧ ∀ st ∈ states, st.rate = (scenario_filter 2).rate
          ∧ st.timestamp = Int.tdiv (st.offset * GST_SECOND) st.rate)
    ∧ (speed_chain_run 2 (speed_change_state (scenario_filter 2) .READY_TO_PAUSED)
          [(scenario_buffer, .OK, .OK), (scenario_buffer, .OK, .OK)]).toOption.map
        (List.map (fun st : GstSpeed => (st.offset, st.timestamp)))
        = some [(2, 45351), (4, 90702)] :=
  ⟨⟨by decide!, by decide!, by decide!, by decide!⟩,
    speed_chain_run_monotonic 2 (scenario_filter 2)
      [(scenario_buffer, .OK, .OK), (scenario_buffer, .OK, .OK)]
      (by decide!) (by decide!) (by decide!) (by decide!),
    by decide!⟩

/-- Instance of C7: Scenario 1, where the loop produces 2 frames and the
state moves from offset 0 to offset 2 and timestamp 2 * 10^9 / 44100. -/
theorem speed_chain_tracker_step_witness :
    (0 < (scenario_filter 2).sample_size ∧ 0 < (scenario_filter 2).rate
      ∧ speed_chain_channels 2 (scenario_filter 2) scenario_buffer
          (new_buffer (speed_chain_out_size (scenario_filter 2) scenario_buffer.size))
          (scenario_buffer.size / (scenario_filter 2).sample_size)
        = .ok (2, { new_buffer 4 with data16 := [150, 300] }))
    ∧ ∃ filter' out_buf,
      speed_chain 2 (scenario_filter 2) scenario_buffer .OK .OK
        = .ok (filter', some out_buf, .OK)
      ∧ out_buf.offset = (scenario_filter 2).offset
      ∧ out_buf.timestamp = (scenario_filter 2).timestamp
      ∧ filter'.offset = (scenario_filter 2).offset + (2 : Nat)
      ∧ filter'.timestamp = Int.tdiv (filter'.offset * GST_SECOND) (scenario_filter 2).rate
      ∧ out_buf.duration = filter'.timestamp - (scenario_filter 2).timestamp
      ∧ filter'.speed = (scenario_filter 2).speed ∧ filter'.format = (scenario_filter 2).format
      ∧ filter'.rate = (scenario_filter 2).rate ∧ filter'.channels = (scenario_filter 2).channels
      ∧ filter'.width = (scenario_filter 2).width
      ∧ filter'.sample_size = (scenario_filter 2).sample_size :=
  ⟨⟨by decide!, by decide!, by decide!⟩,
    speed_chain_tracker_step 2 (scenario_filter 2) scenario_buffer .OK 2
      { new_buffer 4 with data16 := [150, 300] } (by decide!) (by decide!) (by decide!)⟩

/-! ## Queries and events -/

theorem div_by_speed_eq (x : Int) (s : ℚ) (hs : 0 < s) :
    div_by_speed x s = if 0 ≤ x then ⌊(x : ℚ) / s⌋ else ⌈(x : ℚ) / s⌉ := by
  unfold div_by_speed float_to_int
  have h : (0 ≤ (x : ℚ) / s) ↔ 0 ≤ x := by
    rw [le_div_iff₀ hs, zero_mul]
    exact Int.cast_nonneg
  by_cases hx : 0 ≤ x
  · rw [if_pos hx, if_pos (h.mpr hx)]
  · rw [if_neg hx, if_neg (fun hq => hx (h.mp hq))]

/-- C10: a segment-start announcement in time units with start 1 s, on 16-bit
mono audio at 44100 Hz and speed 1.0, leaves `timestamp` at 1 s but `offset`
at 88200, the byte position, where the frame position of 1 s is 44100; the
next buffer of 4 frames then moves `timestamp` to
`88204 * GST_SECOND / 44100`, past 2 s, and is stamped with a duration of
more than one second. -/
theorem speed_sink_event_time_offset :
    speed_sink_event (scenario_filter 1) (.NEWSEGMENT false 1 .TIME 1000000000 (-1) 0) true
      = .ok ({ scenario_filter 1 with timestamp := 1000000000, offset := 88200 },
          .NEWSEGMENT false 1 .TIME 1000000000 (-1) 0, true)
    ∧ gst_speed_convert (scenario_filter 1) .TIME 1000000000 .DEFAULT = some 44100
    ∧ (speed_chain 4 { scenario_filter 1 with timestamp := 1000000000, offset := 88200 }
          scenario_buffer .OK .OK).toOption.map
        (fun r => (r.1.offset, r.1.timestamp, r.2.1.map (fun b => b.duration)))
      = some (88204, 2000090702, some 1000090702) := by
  refine ⟨?_, ?_, ?_⟩ <;> decide!

/-! ## Seek requests -/

/-- C12: a seek request in percent units is handed to no handler at all, and
`speed_src_event` returns TRUE whatever the default handler would return,
while an event that is not a seek does go to `gst_pad_event_default` and
returns its result. -/
theorem speed_src_event_seek_percent :
    speed_src_event (scenario_filter 2) (.SEEK 1 .PERCENT 0 .SET 500000 .NONE (-1)) true false
      = (.nowhere, true)
    ∧ speed_src_event (scenario_filter 2) (.OTHER 0) true false = (.to_default (.OTHER 0), false) := by
  constructor <;> decide!

/-! ## Negotiation results -/

theorem speed_parse_caps_fields_keeps (filter : GstSpeed) (st : GstStructure) :
    (speed_parse_caps_fields filter st).2.offset = filter.offset
    ∧ (speed_parse_caps_fields filter st).2.timestamp = filter.timestamp
    ∧ (speed_parse_caps_fields filter st).2.speed = filter.speed
    ∧ (speed_parse_caps_fields filter st).2.format = filter.format := by
  unfold speed_parse_caps_fields
  cases st.rate <;> cases st.width <;> cases st.channels <;>
    first
      | exact ⟨rfl, rfl, rfl, rfl⟩
      | (dsimp only; split <;> exact ⟨rfl, rfl, rfl, rfl⟩)

theorem speed_parse_caps_fields_fail (filter : GstSpeed) (st : GstStructure) :
    ((speed_parse_caps_fields filter st).1 = false
      ↔ st.rate = none ∨ st.width = none ∨ st.channels = none)
    ∧ ((speed_parse_caps_fields filter st).1 = false
      → (speed_parse_caps_fields filter st).2 = filter) := by
  unfold speed_parse_caps_fields
  cases st.rate <;> cases st.width <;> cases st.channels <;> simp

theorem speed_setcaps_state (filter : GstSpeed) (st : GstStructure) (set_caps_ret : Bool) :
    (speed_setcaps filter st set_caps_ret).2 = (speed_parse_caps filter st).2
    ∧ (speed_setcaps filter st set_caps_ret).1
        = ((speed_parse_caps filter st).1 && set_caps_ret) := by
  unfold speed_setcaps
  rcases h : speed_parse_caps filter st with ⟨b, f'⟩
  cases b <;> simp

/-- C14, as stated, fails: the descriptor of Scenario 3 with width 8 matches
neither layout of the pad template, yet `speed_parse_caps` returns TRUE for
it (with `sample_size = 2`) and so does `speed_setcaps` when the other pad
takes the caps. -/
theorem speed_parse_caps_width8 :
    GST_SPEED_AUDIO_CAPS 1234 { scenario3_caps with width := some 8 } = false
    ∧ speed_parse_caps (speed_init (scenario_filter 1)) { scenario3_caps with width := some 8 }
      = (true,
          { speed_init (scenario_filter 1) with
            format := .INT, rate := 8000, width := 8, channels := 2, sample_size := 2 })
    ∧ (speed_setcaps (speed_init (scenario_filter 1)) { scenario3_caps with width := some 8 }
        true).1 = true := by
  refine ⟨?_, ?_, ?_⟩ <;> decide!

/-- C14, amended: `speed_parse_caps` returns FALSE exactly for the descriptors
whose name is neither `audio/x-raw-float` nor `audio/x-raw-int` or that lack
rate, width or channels, and then `speed_setcaps` returns FALSE too; width,
depth, signedness and byte order are not looked at. -/
theorem speed_parse_caps_rejects (filter : GstSpeed) (st : GstStructure) (set_caps_ret : Bool) :
    ((speed_parse_caps filter st).1 = false
      ↔ (st.name ≠ "audio/x-raw-float" ∧ st.name ≠ "audio/x-raw-int")
        ∨ st.rate = none ∨ st.width = none ∨ st.channels = none)
    ∧ ((speed_parse_caps filter st).1 = false
      → (speed_setcaps filter st set_caps_ret).1 = false) := by
  constructor
  · unfold speed_parse_caps
    by_cases h1 : st.name = "audio/x-raw-float"
    · rw [if_pos h1, (speed_parse_caps_fields_fail _ st).1]
      simp [h1]
    · rw [if_neg h1]
      by_cases h2 : st.name = "audio/x-raw-int"
      · rw [if_pos h2, (speed_parse_caps_fields_fail _ st).1]
        simp [h2]
      · rw [if_neg h2]
        simp [h1, h2]
  · intro h
    rw [(speed_setcaps_state filter st set_caps_ret).2, h]
    rfl

/-- Instance of C14 amended: the descriptor of Scenario 3 without its rate is
rejected by both functions. -/
theorem speed_parse_caps_rejects_witness :
    (speed_parse_caps (scenario_filter 1) { scenario3_caps with rate := none }).1 = false
    ∧ ((speed_parse_caps (scenario_filter 1) { scenario3_caps with rate := none }).1 = false
      ↔ (({ scenario3_caps with rate := none } : GstStructure).name ≠ "audio/x-raw-float"
          ∧ ({ scenario3_caps with rate := none } : GstStructure).name ≠ "audio/x-raw-int")
        ∨ ({ scenario3_caps with rate := none } : GstStructure).rate = none
        ∨ ({ scenario3_caps with rate := none } : GstStructure).width = none
        ∨ ({ scenario3_caps with rate := none } : GstStructure).channels = none)
    ∧ (speed_setcaps (scenario_filter 1) { scenario3_caps with rate := none } true).1 = false :=
  ⟨by decide!,
    (speed_parse_caps_rejects (scenario_filter 1) { scenario3_caps with rate := none } true).1,
    (speed_parse_caps_rejects (scenario_filter 1) { scenario3_caps with rate := none } true).2
      (by decide!)⟩

/-- C15, as stated, fails twice: a float descriptor without a rate makes
`speed_parse_caps` return FALSE after it has overwritten `format` (INT
before, FLOAT after); and when the other pad refuses the descriptor of
Scenario 3, `speed_setcaps` returns FALSE with format, rate, width, channels
and `sample_size` (0 before, 4 after) already stored. -/
theorem speed_setcaps_not_atomic :
    speed_parse_caps (scenario_filter 1)
        { scenario3_caps with name := "audio/x-raw-float", rate := none }
      = (false, { scenario_filter 1 with format := .FLOAT })
    ∧ (scenario_filter 1).format = .INT
    ∧ speed_setcaps (speed_init (scenario_filter 1)) scenario3_caps false
      = (false,
          { speed_init (scenario_filter 1) with
            format := .INT, rate := 8000, width := 16, channels := 2, sample_size := 4 })
    ∧ (speed_init (scenario_filter 1)).sample_size = 0 := by
  refine ⟨?_, ?_, ?_, ?_⟩ <;> decide!

/-- C15, amended: whenever `speed_parse_caps` returns FALSE, rate, width,
channels, `sample_size`, offset, timestamp and speed are as before the call,
and the whole state is when the descriptor's name is neither accepted name;
whenever `speed_setcaps` returns FALSE, the state is the one
`speed_parse_caps` left and offset, timestamp and speed are as before the
call. -/
theorem speed_setcaps_failure (filter : GstSpeed) (st : GstStructure) (set_caps_ret : Bool) :
    ((speed_parse_caps filter st).1 = false →
        (speed_parse_caps filter st).2.rate = filter.rate
        ∧ (speed_parse_caps filter st).2.width = filter.width
        ∧ (speed_parse_caps filter st).2.channels = filter.channels
        ∧ (speed_parse_caps filter st).2.sample_size = filter.sample_size
        ∧ (speed_parse_caps filter st).2.offset = filter.offset
        ∧ (speed_parse_caps filter st).2.timestamp = filter.timestamp
        ∧ (speed_parse_caps filter st).2.speed = filter.speed
        ∧ (st.name ≠ "audio/x-raw-float" → st.name ≠ "audio/x-raw-int" →
            (speed_parse_caps filter st).2 = filter))
    ∧ ((speed_setcaps filter st set_caps_ret).1 = false →
        (speed_setcaps filter st set_caps_ret).2 = (speed_parse_caps filter st).2
        ∧ (speed_setcaps filter st set_caps_ret).2.offset = filter.offset
        ∧ (speed_setcaps filter st set_caps_ret).2.timestamp = filter.timestamp
        ∧ (speed_setcaps filter st set_caps_ret).2.speed = filter.speed) := by
  have hkeep : (speed_parse_caps filter st).2.offset = filter.offset
      ∧ (speed_parse_caps filter st).2.timestamp = filter.timestamp
      ∧ (speed_parse_caps filter st).2.speed = filter.speed := by
    unfold speed_parse_caps
    split
    · have := speed_parse_caps_fields_keeps { filter with format := .FLOAT } st
      exact ⟨this.1, this.2.1, this.2.2.1⟩
    · split
      · have := speed_parse_caps_fields_keeps { filter with format := .INT } st
        exact ⟨this.1, this.2.1, this.2.2.1⟩
      · exact ⟨rfl, rfl, rfl⟩
  have hst := (speed_setcaps_state filter st set_caps_ret).1
  constructor
  · intro hfail
    have hfields : (speed_parse_caps filter st).2.rate = filter.rate
        ∧ (speed_parse_caps filter st).2.width = filter.width
        ∧ (speed_parse_caps filter st).2.channels = filter.channels
        ∧ (speed_parse_caps filter st).2.sample_size = filter.sample_size := by
      unfold speed_parse_caps at hfail ⊢
      split at hfail
      · rename_i h1
        rw [if_pos h1, (speed_parse_caps_fields_fail _ st).2 hfail]
        exact ⟨rfl, rfl, rfl, rfl⟩
      · rename_i h1
        rw [if_neg h1]
        split at hfail
        · rename_i h2
          rw [if_pos h2, (speed_parse_caps_fields_fail _ st).2 hfail]
          exact ⟨rfl, rfl, rfl, rfl⟩
        · rename_i h2
          rw [if_neg h2]
          exact ⟨rfl, rfl, rfl, rfl⟩
    refine ⟨hfields.1, hfields.2.1, hfields.2.2.1, hfields.2.2.2, hkeep.1, hkeep.2.1,
      hkeep.2.2, ?_⟩
    intro h1 h2
    unfold speed_parse_caps
    rw [if_neg h1, if_neg h2]
  · intro _
    exact ⟨hst, by rw [hst]; exact hkeep.1, by rw [hst]; exact hkeep.2.1,
      by rw [hst]; exact hkeep.2.2⟩

/-- Instance of C15 amended: the descriptor of Scenario 3 without its rate, and
the descriptor of Scenario 3 refused by the other pad. -/
theorem speed_setcaps_failure_witness :
    (speed_parse_caps (scenario_filter 1) { scenario3_caps with rate := none }).1 = false
    ∧ ((speed_parse_caps (scenario_filter 1) { scenario3_caps with rate := none }).2.rate
          = (scenario_filter 1).rate
        ∧ (speed_parse_caps (scenario_filter 1) { scenario3_caps with rate := none }).2.width
          = (scenario_filter 1).width
        ∧ (speed_parse_caps (scenario_filter 1) { scenario3_caps with rate := none }).2.channels
          = (scenario_filter 1).channels
        ∧ (speed_parse_caps (scenario_filter 1) { scenario3_caps with rate := none }).2.sample_size
          = (scenario_filter 1).sample_size
        ∧ (speed_parse_caps (scenario_filter 1) { scenario3_caps with rate := none }).2.offset
          = (scenario_filter 1).offset
        ∧ (speed_parse_caps (scenario_filter 1) { scenario3_caps with rate := none }).2.timestamp
          = (scenario_filter 1).timestamp
        ∧ (speed_parse_caps (scenario_filter 1) { scenario3_caps with rate := none }).2.speed
          = (scenario_filter 1).speed
        ∧ (({ scenario3_caps with rate := none } : GstStructure).name ≠ "audio/x-raw-float" →
            ({ scenario3_caps with rate := none } : GstStructure).name ≠ "audio/x-raw-int" →
            (speed_parse_caps (scenario_filter 1) { scenario3_caps with rate := none }).2
              = scenario_filter 1))
    ∧ (speed_setcaps (speed_init (scenario_filter 1)) scenario3_caps false).1 = false
    ∧ ((speed_setcaps (speed_init (scenario_filter 1)) scenario3_caps false).2
          = (speed_parse_caps (speed_init (scenario_filter 1)) scenario3_caps).2
        ∧ (speed_setcaps (speed_init (scenario_filter 1)) scenario3_caps false).2.offset
          = (speed_init (scenario_filter 1)).offset
        ∧ (speed_setcaps (speed_init (scenario_filter 1)) scenario3_caps false).2.timestamp
          = (speed_init (scenario_filter 1)).timestamp
        ∧ (speed_setcaps (speed_init (scenario_filter 1)) scenario3_caps false).2.speed
          = (speed_init (scenario_filter 1)).speed) :=
  ⟨by decide!,
    (speed_setcaps_failure (scenario_filter 1) { scenario3_caps with rate := none } true).1
      (by decide!),
    by decide!,
    (speed_setcaps_failure (speed_init (scenario_filter 1)) scenario3_caps false).2 (by decide!)⟩

/-! ## Round trips -/

/-- C17: on a filter with `sample_size = 0`, a segment-start announcement in
byte units makes the bytes -> time conversion fail, and `speed_sink_event`
still hands the rescaled announcement to `gst_pad_event_default` and returns
TRUE, even when the default handler returns FALSE. -/
theorem speed_sink_event_convert_failure :
    gst_speed_convert { speed_init (scenario_filter 2) with offset := 500 } .BYTES 500 .TIME = none
    ∧ speed_sink_event (speed_init (scenario_filter 2)) (.NEWSEGMENT false 1 .BYTES 1000 2000 0)
        false
      = .ok ({ speed_init (scenario_filter 2) with offset := 500 },
          .NEWSEGMENT false 1 .BYTES 500 1000 0, true) := by
  constructor <;> decide!

/-- C18: on the state `speed_init` leaves (`sample_size = 0`), `speed_chain`
divides by `sample_size` for every buffer, whatever the allocator and the push
would return, and stops with a division by zero instead of a flow result. -/
theorem speed_chain_unnegotiated (fuel : Nat) (filter : GstSpeed) (in_buf : GstBuffer)
    (alloc_ret push_ret : GstFlowReturn) :
    speed_chain fuel (speed_init filter) in_buf alloc_ret push_ret = .error .div_by_zero := by
  simp [speed_chain, speed_init]

/-! ## The exact output count -/

theorem frame_value_convex {α : Type} (load : α → ℚ) (dflt : α) (s : ℚ) (hs : 0 < s)
    (channels : Nat) (in_data : List α) (c n j : Nat) (hj : j < out_frames s n) :
    ∃ i1 i2 : Nat, ∃ frac : ℚ, i1 < n ∧ i2 < n ∧ 0 ≤ frac ∧ frac < 1
      ∧ frame_value load dflt s channels in_data c j
        = load (in_data.getD (c + i1 * channels) dflt) * (1 - frac)
          + load (in_data.getD (c + i2 * channels) dflt) * frac := by
  have hi2 : guint_ceil (cursor s j) < n := (loop_cond_iff s hs n j).mpr hj
  have hfr0 : 0 ≤ cursor s j - ⌊cursor s j⌋ := Int.fract_nonneg _
  have hfr1 : cursor s j - ⌊cursor s j⌋ < 1 := Int.fract_lt_one _
  cases j with
  | zero =>
    refine ⟨0, guint_ceil (cursor s 0), _, by omega, hi2, hfr0, hfr1, ?_⟩
    simp [frame_value, lower_sample]
  | succ j =>
    have hi1 : guint_ceil (cursor s j) < n := (loop_cond_iff s hs n j).mpr (by omega)
    exact ⟨guint_ceil (cursor s j), guint_ceil (cursor s (j + 1)), _, hi1, hi2, hfr0, hfr1, rfl⟩

theorem convex_bounds (a b frac lo hi : ℚ) (h0 : 0 ≤ frac) (h1 : frac < 1)
    (ha : lo ≤ a ∧ a ≤ hi) (hb : lo ≤ b ∧ b ≤ hi) :
    lo ≤ a * (1 - frac) + b * frac ∧ a * (1 - frac) + b * frac ≤ hi := by
  have h2 : 0 ≤ 1 - frac := by linarith
  constructor
  · nlinarith [mul_nonneg h2 (sub_nonneg.mpr ha.1), mul_nonneg h0 (sub_nonneg.mpr hb.1)]
  · nlinarith [mul_nonneg h2 (sub_nonneg.mpr ha.2), mul_nonneg h0 (sub_nonneg.mpr hb.2)]

theorem frame_value_bounds {α : Type} (load : α → ℚ) (dflt : α) (s : ℚ) (hs : 0 < s)
    (channels : Nat) (in_data : List α) (c n j : Nat) (hj : j < out_frames s n) (lo hi : ℚ)
    (hrange : ∀ i, i < n → lo ≤ load (in_data.getD (c + i * channels) dflt)
      ∧ load (in_data.getD (c + i * channels) dflt) ≤ hi) :
    lo ≤ frame_value load dflt s channels in_data c j
    ∧ frame_value load dflt s channels in_data c j ≤ hi := by
  obtain ⟨i1, i2, frac, h1, h2, h3, h4, h5⟩ :=
    frame_value_convex load dflt s hs channels in_data c n j hj
  rw [h5]
  exact convex_bounds _ _ frac lo hi h3 h4 (hrange i1 h1) (hrange i2 h2)

theorem div_by_speed_neg_one (s : ℚ) (hs : 0 < s) :
    div_by_speed (-1) s = ⌈(-1 : ℚ) / s⌉ := by
  rw [div_by_speed_eq (-1) s hs, if_neg (by decide)]
  norm_num

theorem div_by_speed_neg_one_cases (s : ℚ) (hs : 0 < s) :
    (div_by_speed (-1) s = -1 ↔ 1 / 2 < s ∧ s ≤ 1)
    ∧ (1 < s → div_by_speed (-1) s = 0)
    ∧ (s ≤ 1 / 2 → div_by_speed (-1) s ≤ -2) := by
  rw [div_by_speed_neg_one s hs]
  refine ⟨?_, ?_, ?_⟩
  · rw [Int.ceil_eq_iff]
    constructor
    · rintro ⟨h1, h2⟩
      rw [lt_div_iff₀ hs] at h1
      rw [div_le_iff₀ hs] at h2
      push_cast at h1 h2
      constructor <;> linarith
    · rintro ⟨h1, h2⟩
      rw [lt_div_iff₀ hs, div_le_iff₀ hs]
      push_cast
      constructor <;> linarith
  · intro h
    rw [Int.ceil_eq_iff, lt_div_iff₀ hs, div_le_iff₀ hs]
    push_cast
    constructor <;> linarith
  · intro h
    rw [Int.ceil_le, div_le_iff₀ hs]
    push_cast
    linarith

/-- C21, as stated, fails at speed 2.0: a segment-start announcement with
stop -1 is forwarded with stop 0; at speed 0.5 it is forwarded with stop -2. -/
theorem speed_sink_event_unset_stop_scaled :
    (speed_sink_event (scenario_filter 2) (.NEWSEGMENT false 1 .TIME 0 (-1) 0) true).toOption.map
        (fun r => r.2.1) = some (.NEWSEGMENT false 1 .TIME 0 0 0)
    ∧ (speed_sink_event (scenario_filter (1 / 2)) (.NEWSEGMENT false 1 .TIME 0 (-1) 0)
        true).toOption.map (fun r => r.2.1) = some (.NEWSEGMENT false 1 .TIME 0 (-2) 0) := by
  constructor <;> decide!

/-- C21, amended: for every speed > 0, a segment-start announcement whose stop
is -1 is forwarded with stop -1 / speed truncated toward zero: that is -1
exactly when 0.5 < speed <= 1.0, it is 0 for every speed > 1.0 and at most -2
for every speed <= 0.5. -/
theorem speed_sink_event_unset_stop (filter : GstSpeed) (update : Bool) (rate : ℚ)
    (unit : GstFormat) (start base : Int) (default_ret : Bool) (hs : 0 < filter.speed) :
    ∃ filter' start' stop',
      speed_sink_event filter (.NEWSEGMENT update rate unit start (-1) base) default_ret
        = .ok (filter', .NEWSEGMENT update rate unit start' stop' base, true)
      ∧ (stop' = -1 ↔ 1 / 2 < filter.speed ∧ filter.speed ≤ 1)
      ∧ (1 < filter.speed → stop' = 0)
      ∧ (filter.speed ≤ 1 / 2 → stop' ≤ -2) := by
  refine ⟨speed_sink_event_baseline filter unit (div_by_speed start filter.speed),
    div_by_speed start filter.speed, div_by_speed (-1) filter.speed, ?_,
    div_by_speed_neg_one_cases filter.speed hs⟩
  unfold speed_sink_event
  dsimp only
  rw [if_neg (not_not_intro hs)]

/-- Instance of C21 amended: at speed 1.0 the stop stays -1. -/
theorem speed_sink_event_unset_stop_witness :
    0 < (scenario_filter 1).speed
    ∧ (∃ filter' start' stop',
      speed_sink_event (scenario_filter 1) (.NEWSEGMENT false 1 .TIME 0 (-1) 0) true
        = .ok (filter', .NEWSEGMENT false 1 .TIME start' stop' 0, true)
      ∧ (stop' = -1 ↔ 1 / 2 < (scenario_filter 1).speed ∧ (scenario_filter 1).speed ≤ 1)
      ∧ (1 < (scenario_filter 1).speed → stop' = 0)
      ∧ ((scenario_filter 1).speed ≤ 1 / 2 → stop' ≤ -2))
    ∧ (speed_sink_event (scenario_filter 1) (.NEWSEGMENT false 1 .TIME 0 (-1) 0) true).toOption.map
        (fun r => r.2.1) = some (.NEWSEGMENT false 1 .TIME 0 (-1) 0) :=
  ⟨by decide!,
    speed_sink_event_unset_stop (scenario_filter 1) false 1 .TIME 0 0 true (by decide!),
    by decide!⟩

end Speed
